import Mathlib

set_option autoImplicit false

/-!
# Verification of the InfluxDB MCP HTTP gateway

Shallow embedding of the protocol-gateway core of the repository:

* `src/utils/httpTransport.js` — the `HttpTransport` class (request routing,
  session/protocol-version detection, POST/GET/OPTIONS handling, SSE
  streaming decision, error responses);
* `src/http-server.js` — the installed `messageHandler` (the dispatcher over
  JSON-RPC methods) and the Express-level CORS configuration (`corsOptions`).

Capability handlers (`writeData`, `queryData`, ...) are external
collaborators: each is modelled as an abstract function
`Option String → Except String String` (argument blob to thrown-message or
result blob), gathered in a `HandlerEnv`.  The gateway passes their results
through unmodified, so this abstraction loses nothing relevant.

JavaScript truthiness of the string fields consulted by the transport
(`||` fallbacks, `if (message.method)`) is modelled explicitly by `truthy`;
`String.prototype.includes` / `startsWith` are modelled by `jsIncludes` /
`jsStartsWith` on character lists.
-/

namespace McpGateway

/-! ## JS string primitives -/

/-- Tests whether `pat` starts `s` (character lists). -/
def headMatches : List Char → List Char → Bool
  | [], _ => true
  | _ :: _, [] => false
  | a :: as, b :: bs => a == b && headMatches as bs

/-- Tests whether `pat` occurs contiguously inside `s` (character lists). -/
def occursWithin : List Char → List Char → Bool
  | pat, [] => pat.isEmpty
  | pat, c :: rest => headMatches pat (c :: rest) || occursWithin pat rest

/-- Model of JavaScript `s.startsWith(pat)`. -/
def jsStartsWith (s pat : String) : Bool := headMatches pat.data s.data

/-- Model of JavaScript `s.includes(pat)` (substring containment). -/
def jsIncludes (s pat : String) : Bool := occursWithin pat.data s.data

/-- JS truthiness of a possibly-absent string: `undefined` and `""` are falsy. -/
def truthy : Option String → Bool
  | none => false
  | some s => s ≠ ""

/-- JS `a || b` on possibly-absent strings. -/
def jsOr (a b : Option String) : Option String := if truthy a then a else b

/-- JS `a || d` with a string-literal fallback `d`. -/
def jsOrStr (a : Option String) (d : String) : String :=
  match a with
  | some s => if s = "" then d else s
  | none => d

/-- JS `a || b || d` with a string-literal fallback `d`
(used by `detectProtocolVersion` and `detectSession`). -/
def pick2 (a b : Option String) (d : String) : String :=
  jsOrStr (jsOr a b) d

/-- JS string interpolation of a possibly-undefined value. -/
def optText : Option String → String
  | some s => s
  | none => "undefined"

/-! ## Data model (wire envelopes)

Request envelopes per `handlePost` / `messageHandler`: the only fields the
gateway reads are `method`, `id`, `params.name`, `params.arguments`,
`params.uri`.  The `jsonrpc` field is carried but — as the proofs below
establish — never inspected on the inbound side. -/

/-- A JSON-RPC request id: string or integer, opaque, echoed verbatim. -/
inductive ReqId where
  | num : Int → ReqId
  | str : String → ReqId
deriving DecidableEq, Repr

/-- The parts of `params` the dispatcher destructures
(`{ name, arguments }` for `tools/call` / `prompts/get`, `{ uri }` for
`resources/read`).  `arguments` is the opaque argument blob forwarded to the
capability handler. -/
structure RpcParams where
  name : Option String := none
  arguments : Option String := none
  uri : Option String := none
deriving DecidableEq, Repr

/-- An inbound request envelope as `handlePost` sees it after body parsing. -/
structure RpcMessage where
  jsonrpc : Option String := none
  id : Option ReqId := none
  method : Option String := none
  params : Option RpcParams := none
deriving DecidableEq, Repr

/-- A JSON-RPC error object `{ code, message, data }`. -/
structure RpcError where
  code : Int
  message : String
  data : Option String := none
deriving DecidableEq, Repr

/-- Result payloads produced by `messageHandler`.  The canned structural
results (`initialize`, the three listings, `ping`'s `{}`) are distinguished
constructors; handler-produced payloads carry the handler's result blob. -/
inductive ResultVal where
  | initializeResult
  | toolsList
  | resourcesList
  | promptsList
  | emptyObj
  | toolResult : String → ResultVal
  | resourceResult : String → ResultVal
  | promptResult : String → ResultVal
deriving DecidableEq, Repr

/-- A response envelope as built by `messageHandler`: `jsonrpc: "2.0"`,
the request's `id` echoed (possibly `undefined`), and `result` or `error`. -/
structure ResponseEnv where
  jsonrpc : String := "2.0"
  id : Option ReqId := none
  result : Option ResultVal := none
  error : Option RpcError := none
deriving DecidableEq, Repr

/-! ## Capability handlers (external collaborators) -/

/-- The environment of capability handlers the dispatcher closes over.
Each is `arguments ↦ Except thrownMessage resultBlob`. -/
structure HandlerEnv where
  writeData : Option String → Except String String
  queryData : Option String → Except String String
  createBucket : Option String → Except String String
  createOrg : Option String → Except String String
  listDatabases : Option String → Except String String
  healthCheck : Option String → Except String String
  getMeasurements : Option String → Except String String
  getMeasurementSchema : Option String → Except String String
  getBucketInfo : Option String → Except String String
  getTagValues : Option String → Except String String
  listOrganizations : Unit → Except String String
  listBuckets : Unit → Except String String
  fluxQueryExamplesPrompt : Option String → Except String String
  lineProtocolGuidePrompt : Option String → Except String String

/-- The ten registered tool names of the `tools/call` switch in
`http-server.js`. -/
def toolNames : List String :=
  ["write-data", "query-data", "create-bucket", "create-org",
   "list-databases", "health-check", "get-measurements",
   "get-measurement-schema", "get-bucket-info", "get-tag-values"]

/-- The `switch (name)` of the `tools/call` branch: route to the matching
handler, `default` throws `Unknown tool: ${name}`. -/
def callTool (env : HandlerEnv) (name : Option String) (args : Option String) :
    Except String String :=
  if name = some "write-data" then env.writeData args
  else if name = some "query-data" then env.queryData args
  else if name = some "create-bucket" then env.createBucket args
  else if name = some "create-org" then env.createOrg args
  else if name = some "list-databases" then env.listDatabases args
  else if name = some "health-check" then env.healthCheck args
  else if name = some "get-measurements" then env.getMeasurements args
  else if name = some "get-measurement-schema" then env.getMeasurementSchema args
  else if name = some "get-bucket-info" then env.getBucketInfo args
  else if name = some "get-tag-values" then env.getTagValues args
  else .error ("Unknown tool: " ++ optText name)

/-- The `resources/read` branch: two fixed URIs, otherwise
`Unknown resource: ${uri}` is thrown. -/
def readResource (env : HandlerEnv) (uri : Option String) :
    Except String String :=
  if uri = some "influxdb://orgs" then env.listOrganizations ()
  else if uri = some "influxdb://buckets" then env.listBuckets ()
  else .error ("Unknown resource: " ++ optText uri)

/-- The `prompts/get` branch: two fixed prompt names, otherwise
`Unknown prompt: ${name}` is thrown. -/
def getPrompt (env : HandlerEnv) (name : Option String) (args : Option String) :
    Except String String :=
  if name = some "flux-query-examples" then env.fluxQueryExamplesPrompt args
  else if name = some "line-protocol-guide" then env.lineProtocolGuidePrompt args
  else .error ("Unknown prompt: " ++ optText name)

/-! ## The dispatcher (`messageHandler` installed in `http-server.js`) -/

/-- A success envelope `{ jsonrpc: "2.0", id, result }`. -/
def okEnv (id : Option ReqId) (r : ResultVal) : ResponseEnv :=
  { id := id, result := some r }

/-- An error envelope `{ jsonrpc: "2.0", id, error }`. -/
def errEnv (id : Option ReqId) (e : RpcError) : ResponseEnv :=
  { id := id, error := some e }

/-- The dispatcher of `http-server.js` (`httpTransport.messageHandler`).

For the invocation methods, destructuring `message.params` when `params` is
absent throws a `TypeError` outside the inner `try`, which the outermost
`catch` maps to `{ code: -32603, message: "Internal error" }` (no `data`).
A handler throw is caught by the per-branch inner `catch` and mapped to
`{ code: -32603, message: error.message }` (no `data`).  Unknown methods get
`{ code: -32601, message: "Method not found: ..." }`. -/
def messageHandler (env : HandlerEnv) (msg : RpcMessage) : ResponseEnv :=
  if msg.method = some "initialize" then okEnv msg.id .initializeResult
  else if msg.method = some "tools/list" then okEnv msg.id .toolsList
  else if msg.method = some "tools/call" then
    match msg.params with
    | none => errEnv msg.id ⟨-32603, "Internal error", none⟩
    | some p =>
      match callTool env p.name p.arguments with
      | .ok r => okEnv msg.id (.toolResult r)
      | .error e => errEnv msg.id ⟨-32603, e, none⟩
  else if msg.method = some "resources/list" then okEnv msg.id .resourcesList
  else if msg.method = some "resources/read" then
    match msg.params with
    | none => errEnv msg.id ⟨-32603, "Internal error", none⟩
    | some p =>
      match readResource env p.uri with
      | .ok r => okEnv msg.id (.resourceResult r)
      | .error e => errEnv msg.id ⟨-32603, e, none⟩
  else if msg.method = some "prompts/list" then okEnv msg.id .promptsList
  else if msg.method = some "prompts/get" then
    match msg.params with
    | none => errEnv msg.id ⟨-32603, "Internal error", none⟩
    | some p =>
      match getPrompt env p.name p.arguments with
      | .ok r => okEnv msg.id (.promptResult r)
      | .error e => errEnv msg.id ⟨-32603, e, none⟩
  else if msg.method = some "ping" then okEnv msg.id .emptyObj
  else errEnv msg.id ⟨-32601, "Method not found: " ++ optText msg.method, none⟩

/-- The transport-side `processRequest`: invokes the installed message
handler inside a `try`; a throw out of the handler is mapped to
`{ code: -32603, message: "Internal error", data: error.message }`.
The handler argument is `Except`-valued to model possibly-throwing handlers;
the handler this server installs (`messageHandler` above) is total. -/
def processRequest (handler : RpcMessage → Except String ResponseEnv)
    (msg : RpcMessage) : ResponseEnv :=
  match handler msg with
  | .ok r => r
  | .error e => errEnv msg.id ⟨-32603, "Internal error", some e⟩

/-! ## HTTP transport -/

/-- The mutable fields of an `HttpTransport` instance.  `responseStream` and
`heartbeatTimer` model the open SSE stream handle (`this.responseStream`)
and the live `setInterval` heartbeat timer of `startSSEConnection`. -/
structure TransportState where
  sessionId : Option String := none
  protocolVersion : Option String := none
  responseStream : Bool := false
  heartbeatTimer : Bool := false
deriving DecidableEq, Repr

/-- A parsed POST body as `handlePost` classifies it: an object (carrying an
`RpcMessage`), a string whose `JSON.parse` throws, or a non-object value. -/
inductive PostBody where
  | objBody : RpcMessage → PostBody
  | badJsonString : PostBody
  | nonObject : PostBody
deriving DecidableEq, Repr

/-- The parts of an inbound HTTP request the transport consults. -/
structure HttpRequest where
  httpMethod : String
  accept : Option String := none
  origin : Option String := none
  sessionHeader : Option String := none
  querySession : Option String := none
  protocolHeader : Option String := none
  queryProtocolVersion : Option String := none
  body : Option PostBody := none
deriving DecidableEq, Repr

/-- Model of `detectProtocolVersion`: header `mcp-protocol-version`, else query
`protocolVersion`, else the literal `"2024-11-05"`; stored on the instance. -/
def detectProtocolVersion (st : TransportState) (req : HttpRequest) :
    TransportState :=
  { st with
    protocolVersion :=
      some (pick2 req.protocolHeader req.queryProtocolVersion "2024-11-05") }

/-- The session value `detectSession` computes for one request:
header `mcp-session-id`, else query `session`, else a freshly generated id
(`generateSessionId()`, modelled by the `freshId` parameter — it is only
consulted when both sources are absent, matching the lazy `||`). -/
def sessionFor (req : HttpRequest) (freshId : String) : String :=
  pick2 req.sessionHeader req.querySession freshId

/-- Model of `detectSession`: unconditionally reassigns `this.sessionId`. -/
def detectSession (st : TransportState) (req : HttpRequest) (freshId : String) :
    TransportState :=
  { st with sessionId := some (sessionFor req freshId) }

/-- Buffered JSON bodies the transport can write. -/
inductive BodyOut where
  | empty
  | rpc : ResponseEnv → BodyOut
  | successAck
  | receivedAck
  | errorBody : String → Nat → BodyOut
  | serverInfo
  | notAllowed
  | frameworkError : String → BodyOut
deriving DecidableEq, Repr

/-- The first SSE frame of a long-lived stream:
`data: {"type":"connection", sessionId, protocolVersion}`. -/
structure ConnectionEvent where
  sessionId : Option String
  protocolVersion : Option String
deriving DecidableEq, Repr

/-- What gets written on the response: a buffered body, a one-shot SSE reply
(`id:` frame echoing the request id, one `data:` frame, then `res.end()`),
or a long-lived SSE stream (connection event first, then a heartbeat comment
frame at a fixed period until close). -/
inductive ReplyKind where
  | buffered : BodyOut → ReplyKind
  | sseSingle : Option ReqId → ResponseEnv → ReplyKind
  | sseStream : ConnectionEvent → Nat → String → ReplyKind
deriving DecidableEq, Repr

/-- One HTTP response: status, `Content-Type` if set, whether
`Access-Control-Allow-Origin: *` was set on it, and the written payload. -/
structure Reply where
  status : Nat
  contentType : Option String := none
  corsStar : Bool := true
  kind : ReplyKind
deriving DecidableEq, Repr

/-- Model of `shouldStream`: the two long-running operations stream. -/
def shouldStream (method : String) : Bool :=
  method = "query-data" || method = "write-data"

/-- Model of `sendResponse`: SSE one-shot when the client accepts event streams and
the method is classified as streaming, otherwise buffered JSON with 200. -/
def sendResponse (resp : ResponseEnv) (supportsSSE : Bool) (method : String)
    (requestId : Option ReqId) : Reply :=
  if supportsSSE && shouldStream method then
    { status := 200, contentType := some "text/event-stream",
      kind := .sseSingle requestId resp }
  else
    { status := 200, contentType := some "application/json",
      kind := .buffered (.rpc resp) }

/-- Model of `sendErrorResponse`: normalized JSON error body, default status 500. -/
def sendErrorResponse (message : String) (statusCode : Nat) : Reply :=
  { status := statusCode, contentType := some "application/json",
    kind := .buffered (.errorBody message statusCode) }

/-- Model of `handlePost`.  Returns the reply together with the envelope passed to
the message handler, if the handler was invoked at all.  `processRequest`
with the server's total `messageHandler` never throws, so the
`message.id !== undefined && response` guard reduces to the `id` check. -/
def handlePost (env : HandlerEnv) (req : HttpRequest) :
    Reply × Option RpcMessage :=
  let accept := jsOrStr req.accept "*/*"
  let supportsSSE := jsIncludes accept "text/event-stream"
  match req.body with
  | some .badJsonString => (sendErrorResponse "Invalid JSON" 400, none)
  | some .nonObject => (sendErrorResponse "Invalid message format" 400, none)
  | none => (sendErrorResponse "Invalid message format" 400, none)
  | some (.objBody m) =>
    if truthy m.method then
      let resp := processRequest (fun msg => .ok (messageHandler env msg)) m
      if m.id.isSome then
        (sendResponse resp supportsSSE (optText m.method) m.id, some m)
      else
        ({ status := 200, contentType := some "application/json",
           kind := .buffered .successAck }, some m)
    else
      ({ status := 200, contentType := some "application/json",
         kind := .buffered .receivedAck }, none)

/-- Model of `startSSEConnection`: `writeHead(200, text/event-stream)`, first frame is
the connection event built from the instance's session id and protocol
version, `this.responseStream = res`, heartbeat comment `": heartbeat\n\n"`
every 30000 ms. -/
def startSSEConnection (st : TransportState) : TransportState × Reply :=
  ({ st with responseStream := true, heartbeatTimer := true },
   { status := 200, contentType := some "text/event-stream",
     kind := .sseStream ⟨st.sessionId, st.protocolVersion⟩ 30000
       ": heartbeat\n\n" })

/-- The `req.on(close)` handler registered by `startSSEConnection`:
`clearInterval(keepAlive)` and `this.responseStream = null`. -/
def sseCloseHandler (st : TransportState) : TransportState :=
  { st with responseStream := false, heartbeatTimer := false }

/-- Model of `handleGet`: SSE upgrade when the `Accept` header includes
`text/event-stream` (absent header defaults to `""`), otherwise the static
server-info JSON. -/
def handleGet (st : TransportState) (req : HttpRequest) :
    TransportState × Reply :=
  if jsIncludes (jsOrStr req.accept "") "text/event-stream" then
    startSSEConnection st
  else
    (st, { status := 200, contentType := some "application/json",
           kind := .buffered .serverInfo })

/-- The outcome of one request through the transport: the post-state, the
reply written, and the envelope handed to the dispatcher (if any). -/
structure RequestOutcome where
  state : TransportState
  reply : Reply
  dispatched : Option RpcMessage
deriving DecidableEq, Repr

/-- Model of `handleRequest`: CORS headers on every response, OPTIONS short-circuits,
then `detectProtocolVersion` and `detectSession` run on every request, then
POST/GET dispatch (anything else gets 405). -/
def handleRequest (env : HandlerEnv) (st : TransportState) (req : HttpRequest)
    (freshId : String) : RequestOutcome :=
  if req.httpMethod = "OPTIONS" then
    ⟨st, { status := 200, kind := .buffered .empty }, none⟩
  else
    let st2 := detectSession (detectProtocolVersion st req) req freshId
    if req.httpMethod = "POST" then
      ⟨st2, (handlePost env req).1, (handlePost env req).2⟩
    else if req.httpMethod = "GET" then
      ⟨(handleGet st2 req).1, (handleGet st2 req).2, none⟩
    else
      ⟨st2, { status := 405, contentType := some "application/json",
              kind := .buffered .notAllowed }, none⟩

/-! ## Express-level CORS middleware (`corsOptions` in `http-server.js`) -/

/-- The hard-coded production allow-list of `corsOptions`. -/
def allowedOrigins : List String := ["https://your-domain.com"]

/-- The `corsOptions.origin` decision: requests without an `Origin` header
pass, localhost origins pass, otherwise only the allow-list passes
(the rejection calls back with `new Error("Not allowed by CORS")`). -/
def corsOriginAllowed : Option String → Bool
  | none => true
  | some o =>
    jsStartsWith o "http://localhost:" || jsStartsWith o "http://127.0.0.1:" ||
      allowedOrigins.contains o

/-- The Express pipeline for the `/mcp` route: `app.use(cors(corsOptions))`
runs before the route handler.  When `corsOptions.origin` passes an `Error`
to its callback, the cors middleware forwards it to `next(err)` and — with
no error-handling middleware registered — Express's default error handler
answers with status 500 (the `Error` carries no status code); the route
handler, and hence the dispatcher, is never reached. -/
def mcpEndpoint (env : HandlerEnv) (st : TransportState) (req : HttpRequest)
    (freshId : String) : RequestOutcome :=
  if corsOriginAllowed req.origin then handleRequest env st req freshId
  else
    ⟨st, { status := 500, corsStar := false,
           kind := .buffered (.frameworkError "Not allowed by CORS") }, none⟩

/-! ## Concrete instances used by witnesses and counterexamples -/

/-- A stub capability handler that always succeeds with an empty blob. -/
def stubHandler : Option String → Except String String := fun _ => .ok ""

/-- A handler environment of stubs (test input for concrete evaluation). -/
def envUnit : HandlerEnv :=
  { writeData := stubHandler, queryData := stubHandler,
    createBucket := stubHandler, createOrg := stubHandler,
    listDatabases := stubHandler, healthCheck := stubHandler,
    getMeasurements := stubHandler, getMeasurementSchema := stubHandler,
    getBucketInfo := stubHandler, getTagValues := stubHandler,
    listOrganizations := fun _ => .ok "", listBuckets := fun _ => .ok "",
    fluxQueryExamplesPrompt := stubHandler,
    lineProtocolGuidePrompt := stubHandler }

/-- Variant of `envUnit` whose `write-data` handler that throws `"boom"`. -/
def envBoom : HandlerEnv := { envUnit with writeData := fun _ => .error "boom" }

/-- The streaming decision as the spec states it: a pure function of the
`Accept` header and the method name. -/
def streamingDecision (acceptHeader method : String) : Bool :=
  jsIncludes acceptHeader "text/event-stream" && shouldStream method

/-! ## General lemmas about the dispatcher and the transport -/

/-- Every envelope `messageHandler` builds echoes the request's `id`
(absent ids are echoed as absent). -/
theorem messageHandler_id (env : HandlerEnv) (msg : RpcMessage) :
    (messageHandler env msg).id = msg.id := by
  unfold messageHandler
  repeat' split
  all_goals rfl

/-- Every envelope `messageHandler` builds carries exactly one of
`result` / `error`. -/
theorem messageHandler_exclusive (env : HandlerEnv) (msg : RpcMessage) :
    (messageHandler env msg).result.isSome =
      !(messageHandler env msg).error.isSome := by
  unfold messageHandler
  repeat' split
  all_goals rfl

/-- For a name outside the registered tool list, the `tools/call` switch
falls to its `default` branch and throws `Unknown tool: ${name}`. -/
theorem callTool_unknown (env : HandlerEnv) (args : Option String)
    (nm : String) (h : nm ∉ toolNames) :
    callTool env (some nm) args = .error ("Unknown tool: " ++ nm) := by
  simp only [toolNames, List.mem_cons, List.not_mem_nil, or_false, not_or] at h
  unfold callTool
  simp [h.1, h.2.1, h.2.2.1, h.2.2.2.1, h.2.2.2.2.1, h.2.2.2.2.2.1,
    h.2.2.2.2.2.2.1, h.2.2.2.2.2.2.2.1, h.2.2.2.2.2.2.2.2.1,
    h.2.2.2.2.2.2.2.2.2, optText]

/-- Every reply the transport itself writes carries
`Access-Control-Allow-Origin: *`. -/
theorem handleRequest_corsStar (env : HandlerEnv) (st : TransportState)
    (req : HttpRequest) (freshId : String) :
    (handleRequest env st req freshId).reply.corsStar = true := by
  simp only [handleRequest, handlePost, handleGet, startSSEConnection,
    sendResponse, sendErrorResponse]
  repeat' split
  all_goals rfl


/-- Unfolding of `handleRequest` for a POST request. -/
theorem handleRequest_post (env : HandlerEnv) (st : TransportState)
    (req : HttpRequest) (freshId : String) (hm : req.httpMethod = "POST") :
    handleRequest env st req freshId =
      ⟨detectSession (detectProtocolVersion st req) req freshId,
       (handlePost env req).1, (handlePost env req).2⟩ := by
  unfold handleRequest
  simp [hm]

/-- Unfolding of `handleRequest` for a GET request. -/
theorem handleRequest_get (env : HandlerEnv) (st : TransportState)
    (req : HttpRequest) (freshId : String) (hm : req.httpMethod = "GET") :
    handleRequest env st req freshId =
      ⟨(handleGet (detectSession (detectProtocolVersion st req) req freshId)
          req).1,
       (handleGet (detectSession (detectProtocolVersion st req) req freshId)
          req).2, none⟩ := by
  unfold handleRequest
  simp [hm]

/-- The protocol-level methods the dispatcher recognizes by exact match. -/
def knownMethods : List String :=
  ["initialize", "tools/list", "tools/call", "resources/list",
   "resources/read", "prompts/list", "prompts/get", "ping"]

/-! ## Claim theorems -/

/-- C8: for every well-formed request envelope with a known method and an
`id` present, the dispatcher returns a response envelope whose `id` equals
the request's `id`, with exactly one of `result` / `error` present. -/
theorem c8_id_echo_exclusive (env : HandlerEnv) (msg : RpcMessage)
    (m : String) (i : ReqId) (hm : msg.method = some m)
    (hk : m ∈ knownMethods) (hi : msg.id = some i) :
    (messageHandler env msg).id = some i ∧
    (messageHandler env msg).result.isSome =
      !(messageHandler env msg).error.isSome :=
  ⟨by rw [messageHandler_id env msg, hi], messageHandler_exclusive env msg⟩

/-- The ping request with id 1 used to witness C8. -/
def pingReqMsg : RpcMessage :=
  { jsonrpc := some "2.0", id := some (.num 1), method := some "ping" }

/-- Witness for C8 at the ping request with id 1. -/
theorem c8_id_echo_exclusive_witness :
    (messageHandler envUnit pingReqMsg).id = some (ReqId.num 1) ∧
    (messageHandler envUnit pingReqMsg).result.isSome =
      !(messageHandler envUnit pingReqMsg).error.isSome :=
  c8_id_echo_exclusive envUnit pingReqMsg "ping" (.num 1) rfl (by decide) rfl

/-- C10: a POST whose object body has no `method` field is acknowledged
with HTTP 200 and body `{"received": true}`, and the dispatcher is never
invoked for it. -/
theorem c10_no_method_received (env : HandlerEnv) (st : TransportState)
    (req : HttpRequest) (fresh : String) (m : RpcMessage)
    (hm : req.httpMethod = "POST") (hb : req.body = some (.objBody m))
    (hmeth : m.method = none) :
    (handleRequest env st req fresh).reply.status = 200 ∧
    (handleRequest env st req fresh).reply.kind = .buffered .receivedAck ∧
    (handleRequest env st req fresh).dispatched = none := by
  rw [handleRequest_post env st req fresh hm]
  simp [handlePost, hb, hmeth, truthy]

/-- A POST whose object body carries only a `jsonrpc` field. -/
def noMethodReq : HttpRequest :=
  { httpMethod := "POST", body := some (.objBody { jsonrpc := some "2.0" }) }

/-- Witness for C10 at a body `{"jsonrpc": "2.0"}`. -/
theorem c10_no_method_received_witness :
    (handleRequest envUnit {} noMethodReq "s").reply.status = 200 ∧
    (handleRequest envUnit {} noMethodReq "s").reply.kind =
      .buffered .receivedAck ∧
    (handleRequest envUnit {} noMethodReq "s").dispatched = none :=
  c10_no_method_received envUnit {} noMethodReq "s"
    { jsonrpc := some "2.0" } rfl rfl rfl

/-- C4 (amended): the transport performs no protocol-version check — a POST
whose object body carries a truthy `method` is handed to the dispatcher
regardless of the value (or absence) of its protocol field. -/
theorem c4_no_protocol_check (env : HandlerEnv) (st : TransportState)
    (req : HttpRequest) (fresh : String) (m : RpcMessage)
    (hm : req.httpMethod = "POST") (hb : req.body = some (.objBody m))
    (hmeth : truthy m.method = true) :
    (handleRequest env st req fresh).dispatched = some m := by
  rw [handleRequest_post env st req fresh hm]
  simp only [handlePost, hb, hmeth, if_true]
  split <;> rfl

/-- An envelope whose protocol field is `"1.0"`, not the supported `"2.0"`. -/
def wrongProtoMsg : RpcMessage :=
  { jsonrpc := some "1.0", id := some (.num 7), method := some "ping" }

/-- A POST carrying `wrongProtoMsg`. -/
def wrongProtoReq : HttpRequest :=
  { httpMethod := "POST", body := some (.objBody wrongProtoMsg) }

/-- C4 counterexample: an envelope with protocol field `"1.0"` is still
dispatched — the dispatcher is invoked for it, so it is not rejected before
dispatch. -/
theorem c4_counterexample :
    wrongProtoMsg.jsonrpc = some "1.0" ∧
    wrongProtoMsg.jsonrpc ≠ some "2.0" ∧
    (handleRequest envUnit {} wrongProtoReq "f").dispatched =
      some wrongProtoMsg := by decide

/-- Witness for the amended C4 at `wrongProtoReq`. -/
theorem c4_no_protocol_check_witness :
    (handleRequest envUnit {} wrongProtoReq "f").dispatched =
      some wrongProtoMsg :=
  c4_no_protocol_check envUnit {} wrongProtoReq "f" wrongProtoMsg
    rfl rfl (by decide)

/-- C2 (amended): for a notification (no `id`), the dispatcher is still
invoked and its envelope discarded; the transport writes the plain
acknowledgement `{"success": true}` with HTTP 200 — no JSON-RPC body. -/
theorem c2_notification_ack (env : HandlerEnv) (st : TransportState)
    (req : HttpRequest) (fresh : String) (m : RpcMessage)
    (hm : req.httpMethod = "POST") (hb : req.body = some (.objBody m))
    (hmeth : truthy m.method = true) (hid : m.id = none) :
    (handleRequest env st req fresh).reply.status = 200 ∧
    (handleRequest env st req fresh).reply.kind = .buffered .successAck ∧
    (handleRequest env st req fresh).dispatched = some m := by
  rw [handleRequest_post env st req fresh hm]
  simp [handlePost, hb, hmeth, hid]

/-- A ping notification: `method` present, `id` omitted. -/
def pingNotif : RpcMessage := { jsonrpc := some "2.0", method := some "ping" }

/-- A POST carrying the ping notification. -/
def pingNotifReq : HttpRequest :=
  { httpMethod := "POST", body := some (.objBody pingNotif) }

/-- C2 counterexample: on the id-less ping, the dispatcher does not return
nothing — it returns a full response envelope (carrying a `result`), which
the transport then discards. -/
theorem c2_counterexample :
    messageHandler envUnit pingNotif =
      { jsonrpc := "2.0", id := none, result := some .emptyObj,
        error := none } ∧
    (messageHandler envUnit pingNotif).result.isSome = true := by decide

/-- Witness for the amended C2 at the ping notification. -/
theorem c2_notification_ack_witness :
    (handleRequest envUnit {} pingNotifReq "s").reply.status = 200 ∧
    (handleRequest envUnit {} pingNotifReq "s").reply.kind =
      .buffered .successAck ∧
    (handleRequest envUnit {} pingNotifReq "s").dispatched = some pingNotif :=
  c2_notification_ack envUnit {} pingNotifReq "s" pingNotif
    rfl rfl (by decide) rfl

/-- C3 (amended): the session id is re-derived on every non-OPTIONS request:
after any such request it equals the value computed from that request alone
(session header, else session query parameter, else the fresh generated id),
independent of the previous state. -/
theorem c3_session_rederived (env : HandlerEnv) (st : TransportState)
    (req : HttpRequest) (fresh : String) (h : req.httpMethod ≠ "OPTIONS") :
    (handleRequest env st req fresh).state.sessionId =
      some (sessionFor req fresh) := by
  unfold handleRequest handleGet startSSEConnection
  rw [if_neg h]
  repeat' split
  all_goals simp [detectSession, detectProtocolVersion]

/-- A GET request with no session header and no session query parameter. -/
def bareGetReq : HttpRequest := { httpMethod := "GET" }

/-- C3 counterexample: two consecutive requests to the same transport, both
without session information, see two different generated session ids — the
id is regenerated, not held for the transport lifetime. -/
theorem c3_counterexample :
    (handleRequest envUnit {} bareGetReq "session_1_a").state.sessionId =
      some "session_1_a" ∧
    (handleRequest envUnit
        (handleRequest envUnit {} bareGetReq "session_1_a").state
        bareGetReq "session_2_b").state.sessionId = some "session_2_b" ∧
    "session_1_a" ≠ "session_2_b" := by decide

/-- Witness for the amended C3 at a bare GET request. -/
theorem c3_session_rederived_witness :
    (handleRequest envUnit {} bareGetReq "session_1_a").state.sessionId =
      some (sessionFor bareGetReq "session_1_a") :=
  c3_session_rederived envUnit {} bareGetReq "session_1_a" (by decide)

/-- C5: for a POST carrying a request (truthy `method`, `id` present), the
response is a single SSE frame — with the message id echoed as the SSE event
id, then the stream closed — exactly when the Accept header includes
`text/event-stream` and the method is one of the two bulk-data operations
(`query-data` / `write-data`); otherwise it is a buffered JSON body with
HTTP 200.  The decision `streamingDecision` is a pure function of the
Accept header and the method name. -/
theorem c5_streaming_decision (env : HandlerEnv) (st : TransportState)
    (req : HttpRequest) (fresh : String) (m : RpcMessage) (i : ReqId)
    (hm : req.httpMethod = "POST") (hb : req.body = some (.objBody m))
    (hmeth : truthy m.method = true) (hid : m.id = some i) :
    (streamingDecision (jsOrStr req.accept "*/*") (optText m.method) = true →
      (handleRequest env st req fresh).reply =
        { status := 200, contentType := some "text/event-stream",
          corsStar := true,
          kind := .sseSingle (some i) (messageHandler env m) }) ∧
    (streamingDecision (jsOrStr req.accept "*/*") (optText m.method) = false →
      (handleRequest env st req fresh).reply =
        { status := 200, contentType := some "application/json",
          corsStar := true,
          kind := .buffered (.rpc (messageHandler env m)) }) := by
  rw [handleRequest_post env st req fresh hm]
  constructor <;> intro hdec <;>
    simp_all [handlePost, hb, hmeth, hid, streamingDecision, sendResponse,
      processRequest]

/-- A message invoking the streaming-classified method name directly. -/
def queryDataMsg : RpcMessage :=
  { jsonrpc := some "2.0", id := some (.num 9),
    method := some "query-data" }

/-- A POST of `queryDataMsg` that accepts event streams. -/
def queryDataSSEReq : HttpRequest :=
  { httpMethod := "POST", accept := some "application/json, text/event-stream",
    body := some (.objBody queryDataMsg) }

/-- Witness for C5: with an event-stream Accept header and the method name
`query-data`, the reply is the one-shot SSE frame echoing id 9. -/
theorem c5_streaming_decision_witness :
    (handleRequest envUnit {} queryDataSSEReq "s").reply =
      { status := 200, contentType := some "text/event-stream",
        corsStar := true,
        kind := .sseSingle (some (ReqId.num 9))
          (messageHandler envUnit queryDataMsg) } :=
  (c5_streaming_decision envUnit {} queryDataSSEReq "s" queryDataMsg
    (ReqId.num 9) rfl rfl (by decide) rfl).1 (by decide)

/-- C9: a GET whose Accept header includes `text/event-stream` is answered
with HTTP 200, `Content-Type: text/event-stream`, a first `connection`
frame carrying the session id and protocol version, a heartbeat comment
frame registered every 30000 ms, and the close handler releases the timer
and the stream handle. -/
theorem c9_sse_get (env : HandlerEnv) (st : TransportState)
    (req : HttpRequest) (fresh : String) (hm : req.httpMethod = "GET")
    (hsse : jsIncludes (jsOrStr req.accept "") "text/event-stream" = true) :
    (handleRequest env st req fresh).reply.status = 200 ∧
    (handleRequest env st req fresh).reply.contentType =
      some "text/event-stream" ∧
    (handleRequest env st req fresh).reply.kind =
      .sseStream
        ⟨some (sessionFor req fresh),
         some (pick2 req.protocolHeader req.queryProtocolVersion
           "2024-11-05")⟩
        30000 ": heartbeat\n\n" ∧
    (handleRequest env st req fresh).state.responseStream = true ∧
    (handleRequest env st req fresh).state.heartbeatTimer = true ∧
    (sseCloseHandler (handleRequest env st req fresh).state).responseStream =
      false ∧
    (sseCloseHandler (handleRequest env st req fresh).state).heartbeatTimer =
      false := by
  rw [handleRequest_get env st req fresh hm]
  simp [handleGet, hsse, startSSEConnection, detectSession,
    detectProtocolVersion, sseCloseHandler, sessionFor]

/-- A GET that accepts event streams, with no session or version headers. -/
def sseGetReq : HttpRequest :=
  { httpMethod := "GET", accept := some "text/event-stream" }

/-- Witness for C9 at `sseGetReq` with generated session id `s1`. -/
theorem c9_sse_get_witness :
    (handleRequest envUnit {} sseGetReq "s1").reply.status = 200 ∧
    (handleRequest envUnit {} sseGetReq "s1").reply.contentType =
      some "text/event-stream" ∧
    (handleRequest envUnit {} sseGetReq "s1").reply.kind =
      .sseStream
        ⟨some (sessionFor sseGetReq "s1"),
         some (pick2 sseGetReq.protocolHeader sseGetReq.queryProtocolVersion
           "2024-11-05")⟩
        30000 ": heartbeat\n\n" ∧
    (handleRequest envUnit {} sseGetReq "s1").state.responseStream = true ∧
    (handleRequest envUnit {} sseGetReq "s1").state.heartbeatTimer = true ∧
    (sseCloseHandler
        (handleRequest envUnit {} sseGetReq "s1").state).responseStream =
      false ∧
    (sseCloseHandler
        (handleRequest envUnit {} sseGetReq "s1").state).heartbeatTimer =
      false :=
  c9_sse_get envUnit {} sseGetReq "s1" rfl (by decide)

/-- C1 (amended): a `tools/call` with an unregistered tool name produces an
error envelope with code -32603 whose `message` is `Unknown tool: <name>`
(carrying the requested name there; the `data` field is absent), and the
HTTP transport delivers it as a buffered JSON body with status 200. -/
theorem c1_unknown_tool (env : HandlerEnv) (st : TransportState)
    (req : HttpRequest) (fresh : String) (m : RpcMessage) (p : RpcParams)
    (i : ReqId) (nm : String)
    (hm : req.httpMethod = "POST") (hb : req.body = some (.objBody m))
    (hmeth : m.method = some "tools/call") (hp : m.params = some p)
    (hname : p.name = some nm) (hnm : nm ∉ toolNames) (hid : m.id = some i) :
    messageHandler env m =
      { jsonrpc := "2.0", id := some i, result := none,
        error := some ⟨-32603, "Unknown tool: " ++ nm, none⟩ } ∧
    (handleRequest env st req fresh).reply.status = 200 ∧
    (handleRequest env st req fresh).reply.kind =
      .buffered (.rpc (messageHandler env m)) := by
  have ht : truthy m.method = true := by rw [hmeth]; decide
  have hss : shouldStream (optText m.method) = false := by rw [hmeth]; decide
  have hmh : messageHandler env m =
      { jsonrpc := "2.0", id := some i, result := none,
        error := some ⟨-32603, "Unknown tool: " ++ nm, none⟩ } := by
    unfold messageHandler
    rw [hmeth]
    simp [hp, hname, callTool_unknown env p.arguments nm hnm, errEnv, hid]
  refine ⟨hmh, ?_, ?_⟩ <;>
  · rw [handleRequest_post env st req fresh hm]
    simp [handlePost, hb, ht, hid, hss, processRequest, sendResponse]

/-- The Scenario-B message: `tools/call` for the name `does-not-exist`. -/
def unknownToolMsg : RpcMessage :=
  { jsonrpc := some "2.0", id := some (.num 2), method := some "tools/call",
    params := some { name := some "does-not-exist",
                     arguments := some "\x7b\x7d" } }

/-- A POST carrying `unknownToolMsg`. -/
def unknownToolReq : HttpRequest :=
  { httpMethod := "POST", body := some (.objBody unknownToolMsg) }

/-- C1 counterexample: the unknown-tool invocation of Scenario B yields
error code -32603 (not -32601), the requested name sits in `message`, and
`data` is absent. -/
theorem c1_counterexample :
    (messageHandler envUnit unknownToolMsg).error =
      some { code := -32603, message := "Unknown tool: does-not-exist",
             data := none } ∧
    (messageHandler envUnit unknownToolMsg).error.map RpcError.code ≠
      some (-32601) ∧
    (messageHandler envUnit unknownToolMsg).error.map RpcError.data ≠
      some (some "does-not-exist") ∧
    (handleRequest envUnit {} unknownToolReq "s").reply.status = 200 := by
  decide

/-- Witness for the amended C1 at Scenario B's request. -/
theorem c1_unknown_tool_witness :
    messageHandler envUnit unknownToolMsg =
      { jsonrpc := "2.0", id := some (ReqId.num 2), result := none,
        error := some ⟨-32603, "Unknown tool: " ++ "does-not-exist",
          none⟩ } ∧
    (handleRequest envUnit {} unknownToolReq "s").reply.status = 200 ∧
    (handleRequest envUnit {} unknownToolReq "s").reply.kind =
      .buffered (.rpc (messageHandler envUnit unknownToolMsg)) :=
  c1_unknown_tool envUnit {} unknownToolReq "s" unknownToolMsg
    { name := some "does-not-exist", arguments := some "\x7b\x7d" }
    (ReqId.num 2) "does-not-exist" rfl rfl rfl rfl rfl (by decide) rfl

/-- C6 (amended): when a capability handler throws, the dispatcher catches
the exception and returns an error envelope with code -32603 whose
`message` preserves the original exception message (the `data` field is
absent); only the envelope — never the raw exception — crosses the
transport boundary, delivered as a buffered JSON body with HTTP 200. -/
theorem c6_handler_throw (env : HandlerEnv) (st : TransportState)
    (req : HttpRequest) (fresh : String) (m : RpcMessage) (p : RpcParams)
    (i : ReqId) (e : String)
    (hm : req.httpMethod = "POST") (hb : req.body = some (.objBody m))
    (hmeth : m.method = some "tools/call") (hp : m.params = some p)
    (hid : m.id = some i)
    (hthrow : callTool env p.name p.arguments = .error e) :
    messageHandler env m =
      { jsonrpc := "2.0", id := some i, result := none,
        error := some ⟨-32603, e, none⟩ } ∧
    (handleRequest env st req fresh).reply.status = 200 ∧
    (handleRequest env st req fresh).reply.kind =
      .buffered (.rpc (messageHandler env m)) := by
  have ht : truthy m.method = true := by rw [hmeth]; decide
  have hss : shouldStream (optText m.method) = false := by rw [hmeth]; decide
  have hmh : messageHandler env m =
      { jsonrpc := "2.0", id := some i, result := none,
        error := some ⟨-32603, e, none⟩ } := by
    unfold messageHandler
    rw [hmeth]
    simp [hp, hthrow, errEnv, hid]
  refine ⟨hmh, ?_, ?_⟩ <;>
  · rw [handleRequest_post env st req fresh hm]
    simp [handlePost, hb, ht, hid, hss, processRequest, sendResponse]

/-- A `tools/call` of `write-data` (whose `envBoom` handler throws). -/
def boomMsg : RpcMessage :=
  { jsonrpc := some "2.0", id := some (.num 3), method := some "tools/call",
    params := some { name := some "write-data",
                     arguments := some "\x7b\x7d" } }

/-- C6 counterexample: the thrown message `boom` is preserved in the
error's `message` field, not in `data` — `data` is absent. -/
theorem c6_counterexample :
    (messageHandler envBoom boomMsg).error =
      some { code := -32603, message := "boom", data := none } ∧
    (messageHandler envBoom boomMsg).error.map RpcError.data ≠
      some (some "boom") := by decide

/-- A POST carrying `boomMsg`. -/
def boomReq : HttpRequest :=
  { httpMethod := "POST", body := some (.objBody boomMsg) }

/-- Witness for the amended C6 at the throwing `write-data` handler. -/
theorem c6_handler_throw_witness :
    messageHandler envBoom boomMsg =
      { jsonrpc := "2.0", id := some (ReqId.num 3), result := none,
        error := some ⟨-32603, "boom", none⟩ } ∧
    (handleRequest envBoom {} boomReq "s").reply.status = 200 ∧
    (handleRequest envBoom {} boomReq "s").reply.kind =
      .buffered (.rpc (messageHandler envBoom boomMsg)) :=
  c6_handler_throw envBoom {} boomReq "s" boomMsg
    { name := some "write-data", arguments := some "\x7b\x7d" }
    (ReqId.num 3) "boom" rfl rfl rfl rfl rfl rfl

/-- C7 (amended): a request whose Origin fails the hard-coded allow-list is
rejected before any dispatch — the transport state is untouched and the
dispatcher never invoked — but with the framework's default error status
500 (the CORS rejection error carries no status code), while every reply
the transport itself writes carries `Access-Control-Allow-Origin: *`. -/
theorem c7_cors_profiles (env : HandlerEnv) (st : TransportState)
    (req : HttpRequest) (fresh : String) :
    (corsOriginAllowed req.origin = false →
      (mcpEndpoint env st req fresh).reply.status = 500 ∧
      (mcpEndpoint env st req fresh).dispatched = none ∧
      (mcpEndpoint env st req fresh).state = st) ∧
    (corsOriginAllowed req.origin = true →
      (mcpEndpoint env st req fresh).reply.corsStar = true) := by
  constructor <;> intro h
  · simp [mcpEndpoint, h]
  · simp [mcpEndpoint, h, handleRequest_corsStar]

/-- A POST from the disallowed origin `https://evil.com`. -/
def evilOriginReq : HttpRequest :=
  { httpMethod := "POST", origin := some "https://evil.com",
    body := some (.objBody pingReqMsg) }

/-- C7 counterexample: the disallowed origin is answered with status 500
(Express's default error handler), not 403, and the dispatcher is not
invoked. -/
theorem c7_counterexample :
    corsOriginAllowed evilOriginReq.origin = false ∧
    (mcpEndpoint envUnit {} evilOriginReq "f").reply.status = 500 ∧
    (mcpEndpoint envUnit {} evilOriginReq "f").reply.status ≠ 403 ∧
    (mcpEndpoint envUnit {} evilOriginReq "f").dispatched = none := by decide

/-- Witness for the amended C7 at the disallowed origin. -/
theorem c7_cors_profiles_witness :
    (mcpEndpoint envUnit {} evilOriginReq "f").reply.status = 500 ∧
    (mcpEndpoint envUnit {} evilOriginReq "f").dispatched = none ∧
    (mcpEndpoint envUnit {} evilOriginReq "f").state = {} :=
  (c7_cors_profiles envUnit {} evilOriginReq "f").1 (by decide)

end McpGateway
